import Mathlib

/-!
Shallow embedding of the emergency-triage assistant
(`app/agent.py`, `app/pipeline.py`, `app/models/*.py`).

External collaborators (the statistical classifier artifact, the remote
generation service used by the summarizer, severity estimator and reply
generator) are modelled as oracle inputs: the value the remote call would
have produced, with `none` standing for any transport/parse failure.  All
local logic is translated directly from the Python sources.
-/

set_option maxRecDepth 20000

namespace TriageSpec

/-! ## String primitives

Python string operations used by the sources: `str.lower`, the substring
test `k in s`, `str.strip`, slicing, and a handful of fixed regular
expressions (modelled exactly, including word boundaries `\b` and the
fact that `.` does not match a newline). -/

/-- Python `str.lower` (ASCII case folding suffices for the lexicons). -/
def lowerStr (s : String) : String := String.mk (s.data.map Char.toLower)

/-- Python `str.strip`: drop leading and trailing whitespace.  (Defined on
the character list so that it reduces inside the kernel.) -/
def trimStr (s : String) : String :=
  String.mk (((s.data.dropWhile Char.isWhitespace).reverse.dropWhile Char.isWhitespace).reverse)

/-- Character count of a string. -/
def strLen (s : String) : Nat := s.data.length

/-- Python `sep.join(xs)`. -/
def joinWith (sep : String) (xs : List String) : String :=
  String.mk (List.intercalate sep.data (xs.map String.data))

/-- Python `s.startswith(p)`. -/
def strIsPrefixOf (p s : String) : Bool := p.data.isPrefixOf s.data

/-- `n` occurs as a contiguous sublist of `h` (Python `n in h` on strings). -/
def subList (n : List Char) : (h : List Char) → Bool
  | [] => n.isEmpty
  | c :: t => n.isPrefixOf (c :: t) || subList n t

/-- Python substring test `needle in hay`. -/
def strContains (hay needle : String) : Bool := subList needle.data hay.data

/-- Regex word character `\w` (ASCII). -/
def isWordChar (c : Char) : Bool := c.isAlphanum || c == '_'

/-- ASCII letter, the regex class `[A-Za-z]`. -/
def isAsciiLetter (c : Char) : Bool :=
  ('a' ≤ c && c ≤ 'z') || ('A' ≤ c && c ≤ 'Z')

/-- Length of the maximal run of characters satisfying `p` starting at `i`. -/
def runLength (p : Char → Bool) (s : List Char) (i : Nat) : Nat :=
  ((s.drop i).takeWhile p).length

/-- The word `w` occurs at position `i` of `s` with a regex word boundary
`\b` on both sides (all our word patterns consist of word characters). -/
def wordAt (s w : List Char) (i : Nat) : Bool :=
  w.isPrefixOf (s.drop i) &&
  (i == 0 || !isWordChar (s.getD (i - 1) ' ')) &&
  (decide (s.length ≤ i + w.length) || !isWordChar (s.getD (i + w.length) ' '))

/-- No newline strictly between positions `a` and `b` (regex `.` does not
match `\n`, so `A.*B` requires a newline-free gap). -/
def noNewlineBetween (s : List Char) (a b : Nat) : Bool :=
  !(((s.drop a).take (b - a)).contains '\n')

/-- `re.search` of `\bA\b.*\bB\b` on `s`: some `\b`-delimited occurrence of
`A` is followed (newline-free gap) by a `\b`-delimited occurrence of `B`. -/
def searchWordThenWord (s a b : List Char) : Bool :=
  (List.range (s.length + 1)).any (fun i =>
    wordAt s a i &&
    (List.range (s.length + 1)).any (fun j =>
      decide (i + a.length ≤ j) && wordAt s b j &&
      noNewlineBetween s (i + a.length) j))

/-! ## `app/config.py` -/

/-- `config.CRISIS_CATEGORIES`. -/
def CRISIS_CATEGORIES : List String :=
  ["flood", "fire", "earthquake", "storm", "landslide", "other"]

/-- `config.SEVERITY_LEVELS`. -/
def SEVERITY_LEVELS : List String := ["low", "medium", "high"]

/-! ## `app/models/classifier.py`

`CrisisClassifier.classify` first obtains a raw label from the statistical
model (`USE_TRANSFORMER` is `False` in `app/config.py`, so the baseline
TF-IDF model is used); that external prediction is the oracle input
`modelLabel`.  The keyword overrides and the rule-based severity are local
code, translated below. -/

structure ClassificationResult where
  category : String
  severity : String
  location : Option String
  rawModel : String
  rawLabel : String
  rawCategorySource : String
  deriving Repr, DecidableEq

namespace CrisisClassifier

/-- Flood lexical override condition of `_apply_category_overrides`
(classifier.py lines 75-83): a flood-root word, or the regex
`\bwater\b.*\bbasement\b` in either order, or "water" together with a
home/dwelling word.  `text` here is already lowercased. -/
def floodOverrideCond (lowered : String) : Bool :=
  let waterBasement :=
    searchWordThenWord lowered.data "water".data "basement".data ||
    searchWordThenWord lowered.data "basement".data "water".data
  (["flood", "flooded", "flooding"].any (fun k => strContains lowered k)) ||
  waterBasement ||
  (strContains lowered "water" &&
    (["house", "home", "apartment"].any (fun h => strContains lowered h)))

/-- `smoke_terms` of `_apply_category_overrides` (classifier.py lines 87-94). -/
def smokeTerms : List String :=
  ["heavy smoke", "thick smoke", "smoke in my apartment", "smoke everywhere",
   "smoke in the building", "smoke coming from"]

/-- Smoke-only condition (classifier.py line 95). -/
def smokeOverrideCond (lowered : String) : Bool :=
  smokeTerms.any (fun term => strContains lowered term)

/-- Secondary flood keyword sweep (classifier.py line 103). -/
def floodSweepCond (lowered : String) : Bool :=
  ["flood", "flooding", "water is rising", "water rising", "river overflow"].any
    (fun k => strContains lowered k)

/-- Secondary earthquake keyword sweep (classifier.py line 106). -/
def quakeSweepCond (lowered : String) : Bool :=
  ["earthquake", "tremor", "strong shaking", "ground shaking"].any
    (fun k => strContains lowered k)

/-- Secondary fire keyword sweep (classifier.py line 109). -/
def fireSweepCond (lowered : String) : Bool :=
  ["fire", "burning", "wildfire", "smoke everywhere"].any
    (fun k => strContains lowered k)

/-- `CrisisClassifier._apply_category_overrides` (classifier.py lines 66-113).
Returns `(final_category, source)`. -/
def apply_category_overrides (text modelCategory : String) : String × String :=
  let lowered := lowerStr text
  if floodOverrideCond lowered then ("flood", "keyword_override")
  else if smokeOverrideCond lowered then ("fire", "keyword_override")
  else if CRISIS_CATEGORIES.contains modelCategory && !(modelCategory == "other") then
    (modelCategory, "model")
  else if floodSweepCond lowered then ("flood", "keyword_override")
  else if quakeSweepCond lowered then ("earthquake", "keyword_override")
  else if fireSweepCond lowered then ("fire", "keyword_override")
  else ("other", "fallback")

/-- `high_keywords` of `_infer_severity` (classifier.py lines 122-133). -/
def high_keywords : List String :=
  ["trapped", "cannot breathe", "can\x27t breathe", "unconscious",
   "house destroyed", "building collapsed", "roof collapsed",
   "severe bleeding", "heart attack", "no pulse"]

/-- `medium_keywords` of `_infer_severity` (classifier.py lines 138-152). -/
def medium_keywords : List String :=
  ["water rising", "water is rising", "rising water", "road blocked",
   "roads are blocked", "cars are stuck", "car is stuck", "injured",
   "injuries", "need help", "need assistance",
   "cannot leave the building", "can\x27t leave the building"]

/-- `CrisisClassifier._infer_severity` (classifier.py lines 115-156). -/
def infer_severity (text : String) : String :=
  let lowered := lowerStr text
  if high_keywords.any (fun k => strContains lowered k) then "high"
  else if medium_keywords.any (fun k => strContains lowered k) then "medium"
  else "low"

/-- `CrisisClassifier.classify` (classifier.py lines 160-189) with the
baseline model's raw label supplied as the oracle `modelLabel`. -/
def classify (modelLabel : String) (text : String) : ClassificationResult :=
  let overridden := apply_category_overrides text modelLabel
  { category := overridden.1
    severity := infer_severity text
    location := none
    rawModel := "baseline"
    rawLabel := modelLabel
    rawCategorySource := overridden.2 }

end CrisisClassifier

/-! ## `app/models/severity_llm.py`

`LLMSeverityModel.infer` posts to the remote generation service; any
transport/status/JSON failure, and any parsed severity outside the closed
set, falls back to `_rule_based_severity`.  The oracle is the parsed
`(severity, reason)` pair the remote would have yielded, `none` for any of
the failure modes before parsing. -/

structure LLMSeverityResult where
  severity : String
  reason : String
  deriving Repr, DecidableEq

namespace LLMSeverityModel

/-- `high_terms` of `_rule_based_severity` (severity_llm.py lines 34-48). -/
def sevHighTerms : List String :=
  ["unconscious", "not breathing", "no pulse", "cpr", "gunshot", "shooting",
   "explosion", "trapped", "collapsed", "heavy bleeding", "bleeding heavily",
   "cant get out", "can\x27t get out"]

/-- `injured_terms` of `_rule_based_severity` (severity_llm.py line 49). -/
def sevInjuredTerms : List String := ["people injured", "injured", "people collapsed"]

/-- `LLMSeverityModel._rule_based_severity` (severity_llm.py lines 26-58). -/
def rule_based_severity (text : String) : LLMSeverityResult :=
  let t := lowerStr text
  if sevHighTerms.any (fun term => strContains t term) then
    { severity := "high", reason := "Rule-based escalation: life-threatening cue detected." }
  else if (strContains t "fire" || strContains t "smoke") &&
          sevInjuredTerms.any (fun term => strContains t term) then
    { severity := "high", reason := "Rule-based escalation: fire/smoke with injuries." }
  else
    { severity := "medium", reason := "Defaulted to medium." }

/-- `LLMSeverityModel.infer` (severity_llm.py lines 60-107).  `oracle` is the
lowercased severity string and reason parsed from the remote JSON; `none`
covers request failure, non-200 status and unparsable bodies, all of which
take the `_rule_based_severity` fallback, as does an out-of-set severity. -/
def infer (oracle : Option (String × String)) (text : String) : LLMSeverityResult :=
  match oracle with
  | none => rule_based_severity text
  | some (sev, reason) =>
    if sev == "low" || sev == "medium" || sev == "high" then
      { severity := sev, reason := if reason == "" then "LLM provided no reason." else reason }
    else rule_based_severity text

end LLMSeverityModel

/-! ## `app/models/location_extractor.py`

The three fixed regular expressions of `LocationExtractor` are modelled
with Python `re` semantics (leftmost match, greedy quantifiers with
backtracking, `\b` word boundaries, `IGNORECASE` on the address pattern). -/

namespace LocationExtractor

/-- Street-qualifier alternation of `_extract_address`, in regex
alternation order: `Street|St|Avenue|Ave|Road|Rd|Boulevard|Blvd|Lane|Ln|Drive|Dr`. -/
def addressQualifiers : List String :=
  ["Street", "St", "Avenue", "Ave", "Road", "Rd", "Boulevard", "Blvd",
   "Lane", "Ln", "Drive", "Dr"]

/-- Try the qualifier alternation (case-insensitively) at position `r`,
requiring the pattern's trailing `\b`; returns the matched length. -/
def matchQualifierAt (s : List Char) (r : Nat) : Option Nat :=
  addressQualifiers.findSome? (fun q =>
    let qc := q.data.map Char.toLower
    if qc.isPrefixOf ((s.drop r).map Char.toLower) &&
       (decide (s.length ≤ r + qc.length) || !isWordChar (s.getD (r + qc.length) ' '))
    then some qc.length else none)

/-- Match the address pattern
`\b(\d{1,5}\s+[A-Za-z][A-Za-z\s]*\s+(Street|...|Dr))\b` at start position
`i`; returns the end position of group 1.  Greedy backtracking collapses to:
the digit run (1-5, followed by whitespace is forced), a maximal whitespace
run, one letter, then the `[A-Za-z\s]*` star tried longest-first before the
forced `\s+` and the qualifier alternation. -/
def matchAddressAt (s : List Char) (i : Nat) : Option Nat :=
  if i > 0 && isWordChar (s.getD (i - 1) ' ') then none
  else
    let d := runLength Char.isDigit s i
    if d == 0 || d > 5 then none
    else
      let w1 := runLength Char.isWhitespace s (i + d)
      if w1 == 0 then none
      else
        let p0 := i + d + w1
        if !isAsciiLetter (s.getD p0 '0') || decide (s.length ≤ p0) then none
        else
          let mMax := runLength (fun c => isAsciiLetter c || c.isWhitespace) s (p0 + 1)
          (List.range (mMax + 1)).findSome? (fun t =>
            let k := mMax - t
            let q := p0 + 1 + k
            let w2 := runLength Char.isWhitespace s q
            if w2 == 0 then none
            else match matchQualifierAt s (q + w2) with
              | some ql => some (q + w2 + ql)
              | none => none)

/-- Leftmost match of the address pattern: group 1 of `re.search`. -/
def matchAddress (s : List Char) : Option (List Char) :=
  (List.range s.length).findSome? (fun i =>
    match matchAddressAt s i with
    | some e => some ((s.drop i).take (e - i))
    | none => none)

/-- `LocationExtractor._extract_address` (location_extractor.py lines 5-13). -/
def extract_address (text : String) : String :=
  match matchAddress text.data with
  | some cs => trimStr (String.mk cs)
  | none => ""

/-- `re.search` of `kw([^.,;]+)` on the lowered text, where `kw` is one of
`"near "`, `"at "`, `"in "`: leftmost occurrence of the literal keyword
followed by a nonempty greedy run of characters other than `.`, `,`, `;`.
Returns the whole match (`m.group(0)`). -/
def searchPrepPattern (lowered kw : List Char) : Option (List Char) :=
  (List.range lowered.length).findSome? (fun i =>
    if kw.isPrefixOf (lowered.drop i) then
      let cap := (lowered.drop (i + kw.length)).takeWhile
        (fun c => !(c == '.') && !(c == ',') && !(c == ';'))
      if cap.length == 0 then none else some (kw ++ cap)
    else none)

/-- The candidate phrase of `LocationExtractor.extract` (lines 29-39):
first pattern among `near`, `at`, `in` that matches, empty if none. -/
def prepCandidate (lowered : List Char) : List Char :=
  match searchPrepPattern lowered "near ".data with
  | some c => c
  | none => match searchPrepPattern lowered "at ".data with
    | some c => c
    | none => match searchPrepPattern lowered "in ".data with
      | some c => c
      | none => []

/-- `geo_tokens` (location_extractor.py lines 44-69). -/
def geoTokens : List String :=
  ["street", "st ", "st.", "avenue", "ave", "road", "rd", "boulevard",
   "blvd", "lane", "ln", "drive", "dr", "downtown", "city", "center",
   "centre", "plaza", "square", "park", "town", "mall", "station", "airport"]

/-- `LocationExtractor.extract` (location_extractor.py lines 15-74). -/
def extract (text : String) : String :=
  let address := extract_address text
  if !(address == "") then address
  else
    let lowered := lowerStr text
    if strContains lowered "mall" then "the mall"
    else if strContains lowered "station" then "the station"
    else if strContains lowered "airport" then "the airport"
    else
      let candidate := prepCandidate lowered.data
      if candidate.isEmpty then ""
      else if geoTokens.any (fun tok => subList tok.data candidate) then
        trimStr (String.mk candidate)
      else ""

end LocationExtractor

/-! ## Guidance retriever (`IncidentRAG.generate_guidance`)

`TriagePipeline.run` (pipeline.py line 75) calls
`self.rag.generate_guidance(summary=..., category=..., severity=...)`, but
the repository's `app/models/rag.py` defines only a `retrieve` method (and
the repository's own `tests/test_rag.py` calls `retrieve(text=..., category=...)`
expecting a `retrieved_docs` attribute): the guidance retriever
implementation the pipeline uses is not among the sources. -/

/-- A knowledge-base entry: `(category, severity, text)` (spec section 4.5). -/
structure KBEntry where
  category : String
  severity : String
  text : String
  deriving Repr, DecidableEq

namespace IncidentRAG

/-- Modelled from the spec: the fixed generic safety sentence of section 4.5
(the text itself is unspecified; the pipeline's own default guidance string,
pipeline.py lines 70-73, is used as the fixed sentence). -/
def genericGuidanceSentence : String :=
  "Stay safe, avoid unnecessary risk, follow instructions from local authorities, and contact emergency services in urgent situations."

/-- Modelled from the spec: the templated lead sentence of section 4.5
stating the inferred severity and category. -/
def guidanceLead (severity category : String) : String :=
  "Based on your description, this appears to be a " ++
    (severity ++ (" severity " ++ (category ++ " situation. ")))

/-- Modelled from the spec: `IncidentRAG.generate_guidance`, absent from the
sources (only its caller `TriagePipeline.run` and an out-of-date
`retrieve` are present).  Spec section 4.5: two-tier lookup against a
knowledge base of `(category, severity, text)` entries - exact
`(category, severity)` match preferred, else the most specific entry for
the category alone, else the fixed generic safety sentence; the output is
always the templated lead sentence followed by the retrieved (or generic)
guidance text, never empty, never raises. -/
def generate_guidance (kb : List KBEntry) (summary category severity : String) : String :=
  let exact := kb.find? (fun e => e.category == category && e.severity == severity)
  let byCategory := kb.find? (fun e => e.category == category)
  let retrieved :=
    match exact with
    | some e => e.text
    | none =>
      match byCategory with
      | some e => e.text
      | none => genericGuidanceSentence
  let _ := summary
  guidanceLead severity category ++ retrieved

end IncidentRAG

/-! ## `app/pipeline.py` -/

structure TriageResult where
  reply : String
  category : String
  severity : String
  location : String
  guidance : String
  summary : String
  deriving Repr, DecidableEq

/-- Oracle inputs of one `TriagePipeline.run` call: the statistical model's
raw label and the remote severity estimator's parsed response. -/
structure PipelineOracles where
  modelLabel : String
  severityLLM : Option (String × String)
  deriving Repr, DecidableEq

namespace TriagePipeline

/-- `TriagePipeline._summarize_text` (pipeline.py lines 43-51). -/
def summarize_text (text : String) : String :=
  let summary := trimStr text
  if summary == "" then "User reported an issue." else summary

/-- `high_any` of `_adjust_severity` (pipeline.py lines 119-146). -/
def high_any : List String :=
  ["gunshot", "gunshots", "shots fired", "active shooter", "shooter", "armed",
   "stabbing", "stabbed", "knife", "attack", "bleeding heavily",
   "heavy bleeding", "blood everywhere", "not breathing", "no pulse",
   "doing cpr", "trying cpr", "fire inside", "smoke is filling",
   "smoke filling", "cannot reach the exit", "can\x27t reach the exit",
   "hallway is burning", "trapped inside", "can\x27t get out", "cannot get out"]

/-- `flood_terms` of `_adjust_severity` (pipeline.py line 151). -/
def flood_terms : List String :=
  ["flood", "flooding", "water is rising", "water rising", "water rising quickly"]

/-- `high_risk_terms` of `_adjust_severity` (pipeline.py line 152). -/
def high_risk_terms : List String :=
  ["trapped", "swept", "swept away", "cannot breathe", "can\x27t breathe", "unconscious"]

/-- `trapped_terms` of `_adjust_severity` (pipeline.py lines 161-170);
the seventh entry uses the curly apostrophe U+2019 as in the source. -/
def trapped_terms : List String :=
  ["stuck", "trapped", "cannot get out", "can\x27t get out", "cannot exit",
   "can\x27t exit", "we can’t leave", "we can\x27t leave"]

/-- `child_terms` of `_adjust_severity` (pipeline.py line 171). -/
def child_terms : List String :=
  ["my son", "my daughter", "my kid", "my child", "children", "people are trapped"]

/-- `smoke_terms` of `_adjust_severity` (pipeline.py lines 176-186). -/
def adjustSmokeTerms : List String :=
  ["heavy smoke", "thick smoke", "dense smoke", "hard to breathe",
   "cant breathe", "can\x27t breathe", "struggling to breathe",
   "coughing badly", "choking on smoke"]

/-- `TriagePipeline._adjust_severity` (pipeline.py lines 111-193). -/
def adjust_severity (category baseSeverity text : String) : String :=
  let severity0 := if baseSeverity == "" then "medium" else baseSeverity
  let lowered := lowerStr text
  let severity1 :=
    if high_any.any (fun term => strContains lowered term) then "high" else severity0
  let severity2 :=
    if category == "flood" && flood_terms.any (fun term => strContains lowered term) then
      let s := if severity1 == "low" then "medium" else severity1
      if high_risk_terms.any (fun term => strContains lowered term) then "high" else s
    else severity1
  let severity3 :=
    if category == "flood" && trapped_terms.any (fun t => strContains lowered t) &&
       child_terms.any (fun c => strContains lowered c) then "high"
    else severity2
  let severity4 :=
    if adjustSmokeTerms.any (fun term => strContains lowered term) then "high" else severity3
  if severity4 == "low" || severity4 == "medium" || severity4 == "high" then severity4
  else "medium"

/-- Merge of the secondary severity estimate (pipeline.py lines 64-68):
`llm_sev` is always truthy, so the merge applies unconditionally. -/
def mergeSeverity (current llmSeverity : String) : String :=
  if llmSeverity == "high" && !(current == "high") then "high"
  else if current == "low" && llmSeverity == "medium" then "medium"
  else current

/-- `TriagePipeline._extract_location` (pipeline.py lines 102-109). -/
def extract_location (text : String) : String :=
  let extracted := LocationExtractor.extract text
  if !(extracted == "") then trimStr extracted else ""

/-- `TriagePipeline.run` (pipeline.py lines 53-100).  The pipeline is
constructed by `TriageAgent` with default arguments, so `self.rag` is
present and the guidance always comes from `generate_guidance`. -/
def run (kb : List KBEntry) (o : PipelineOracles)
    (text : String) (summary : Option String) : TriageResult :=
  let summaryText :=
    match summary with
    | some s => if s == "" then summarize_text text else s
    | none => summarize_text text
  -- classify is called on `summary_text` (pipeline.py line 61); the
  -- `last_user_text` parameter of the Python signature is never used in `run`
  let cls := CrisisClassifier.classify o.modelLabel summaryText
  let severityAdjusted := adjust_severity cls.category cls.severity summaryText
  let llmSev := LLMSeverityModel.infer o.severityLLM summaryText
  let severity := mergeSeverity severityAdjusted llmSev.severity
  let guidance := IncidentRAG.generate_guidance kb summaryText cls.category severity
  let locationHint0 := cls.location.getD ""
  let locationHint :=
    if locationHint0 == "" && !(summaryText == "") then extract_location summaryText
    else locationHint0
  let reply0 := "Understood. This looks like a " ++ (severity ++ (" severity " ++ (cls.category ++ " situation.")))
  let reply1 := if !(locationHint == "") then reply0 ++ (" Reported location: " ++ (locationHint ++ ".")) else reply0
  let reply := reply1 ++ (" " ++ guidance)
  { reply := reply
    category := cls.category
    severity := severity
    location := locationHint
    guidance := guidance
    summary := summaryText }

end TriagePipeline

/-! ## `app/models/summarizer.py` -/

namespace ChatSummarizer

/-- `ChatSummarizer.summarize` (summarizer.py lines 16-57).  `oracle` is the
raw `response` text the remote would return; `none` covers request and
JSON-parse failures.  The stripped summary is rejected when shorter than
10 characters. -/
def summarize (oracle : Option String) (userMessages : List String) : Option String :=
  if userMessages.isEmpty then none
  else
    match oracle with
    | none => none
    | some raw =>
      let summary := trimStr raw
      if strLen summary < 10 then none else some summary

end ChatSummarizer

/-! ## `app/models/reply_llm.py` -/

/-- A chat message `{role, content}`.  Python messages are dicts accessed
with `.get`; a missing key behaves like the empty string in every use site
(`m.get("role") == "user"`, truthiness of `m.get("content")`), so plain
string fields are a faithful model. -/
structure Message where
  role : String
  content : String
  deriving Repr, DecidableEq

structure LLMReplyContext where
  category : String
  severity : String
  location : String
  guidance : String
  summary : String
  locationKnown : Bool
  peopleKnown : Bool
  safetyKnown : Bool
  triageComplete : Bool
  deriving Repr, DecidableEq

structure ReplyResult where
  text : String
  triageComplete : Bool
  deriving Repr, DecidableEq

namespace LLMReplyModel

/-- Safety-confirmation phrase list of `_build_prompt` (reply_llm.py lines 57-68). -/
def safetyPhrases : List String :=
  ["i am safe", "i\x27m safe", "we are safe", "we\x27re safe", "we are both safe",
   "safe upstairs", "safe now", "away from danger", "out of danger",
   "away from the danger"]

/-- The `last_user` variable of `_build_prompt` (reply_llm.py lines 40-51):
content of the last user message with nonempty content among the final six
messages, `""` if none. -/
def lastUserRecent (messages : List Message) : String :=
  let recent := if messages.length > 6 then messages.drop (messages.length - 6) else messages
  recent.foldl (fun acc m => if !(m.content == "") && m.role == "user" then m.content else acc) ""

/-- `safety_confirmed` of `_build_prompt` (reply_llm.py lines 54-69): a
safety phrase occurs in the lowercased `summary + " " + last_user`. -/
def safetyConfirmed (messages : List Message) (ctx : LLMReplyContext) : Bool :=
  let safetyConfirmedText := ctx.summary ++ (" " ++ lastUserRecent messages)
  safetyPhrases.any (fun phrase => strContains (lowerStr safetyConfirmedText) phrase)

/-- The `triage_complete` value computed by `LLMReplyModel._build_prompt`
(reply_llm.py lines 70-72): `ctx.location_known and ctx.people_known and
effective_safety` where `effective_safety = ctx.safety_known or
safety_confirmed`.  The prompt text built alongside is not modelled: the
only behaviour depending on it is the `if not prompt` guard of
`generate_reply`, and the prompt always begins with a fixed nonempty
literal. -/
def buildPromptComplete (messages : List Message) (ctx : LLMReplyContext) : Bool :=
  ctx.locationKnown && ctx.peopleKnown && (ctx.safetyKnown || safetyConfirmed messages ctx)

/-- `LLMReplyModel.generate_reply` (reply_llm.py lines 134-170).  `oracle`
is the raw `response` text of the remote generator; `none` covers request
failure, non-200 status and unparsable bodies.  A stripped reply that is
empty or shorter than 20 characters is rejected. -/
def generate_reply (oracle : Option String) (messages : List Message)
    (ctx : LLMReplyContext) : Option ReplyResult :=
  let complete := buildPromptComplete messages ctx
  match oracle with
  | none => none
  | some raw =>
    let reply := trimStr raw
    if reply == "" || strLen reply < 20 then none
    else some { text := reply, triageComplete := complete }

end LLMReplyModel

/-! ## `app/agent.py` -/

structure AgentResult where
  reply : String
  category : String
  severity : String
  location : String
  guidance : String
  summary : String
  deriving Repr, DecidableEq

/-- Oracle inputs of one `TriageAgent` call: the summarizer's remote
response, the pipeline's oracles, and the reply generator's remote
response. -/
structure AgentOracles where
  summarizer : Option String
  pipeline : PipelineOracles
  replyLLM : Option String
  deriving Repr, DecidableEq

namespace TriageAgent

/-- `TriageAgent._latest_user_message` (agent.py lines 58-59). -/
def latest_user_message (messages : List Message) : Option Message :=
  messages.reverse.find? (fun m => m.role == "user")

/-- `greeting_keywords` (agent.py line 67). -/
def greetingKeywords : List String :=
  ["hi", "hello", "hey", "good morning", "good evening", "good afternoon"]

/-- `emergency_keywords` (agent.py lines 69-84). -/
def emergencyKeywords : List String :=
  ["fire", "smoke", "flood", "water rising", "earthquake", "gunshot",
   "bleeding", "not breathing", "no pulse", "trapped", "accident",
   "explosion", "storm", "landslide"]

/-- `TriageAgent._is_greeting` (agent.py lines 61-87). -/
def is_greeting (text : String) : Bool :=
  if text == "" then false
  else
    let t := lowerStr (trimStr text)
    if t == "" then false
    else if greetingKeywords.any (fun g => t == g || strIsPrefixOf (g ++ " ") t) then
      !(emergencyKeywords.any (fun k => strContains t k))
    else false

/-- The user-authored texts of the conversation (agent.py lines 93, 135):
contents of the `user`-role messages with truthy content. -/
def userTexts (messages : List Message) : List String :=
  (messages.filter (fun m => m.role == "user" && !(m.content == ""))).map (fun m => m.content)

/-- Python `s[-400:]`: the trailing 400 characters. -/
def lastChars (n : Nat) (s : String) : String :=
  String.mk (s.data.drop (s.data.length - n))

/-- `TriageAgent._build_summary` (agent.py lines 89-107). -/
def build_summary (summarizerOracle : Option String) (messages : List Message) : String :=
  let texts := userTexts messages
  match ChatSummarizer.summarize summarizerOracle texts with
  | some s => if !(s == "") then trimStr s else
      let fallback := trimStr (joinWith " " texts)
      if !(fallback == "") then lastChars 400 fallback else "User reported an issue."
  | none =>
      let fallback := trimStr (joinWith " " texts)
      if !(fallback == "") then lastChars 400 fallback else "User reported an issue."

/-- Count-pattern words of `_people_known` (agent.py line 112). -/
def peopleWords : List String :=
  ["people", "persons", "kids", "children", "adults", "workers", "passengers"]

/-- `re.search` of `\b\d+\s+(people|...)\b` with `re.I` (agent.py line 112):
a word-boundary digit run, whitespace, then one of the count words with a
trailing word boundary. -/
def peopleCountSearch (s : List Char) : Bool :=
  (List.range s.length).any (fun i =>
    (i == 0 || !isWordChar (s.getD (i - 1) ' ')) &&
    (let d := runLength Char.isDigit s i
     decide (0 < d) &&
     (let w := runLength Char.isWhitespace s (i + d)
      decide (0 < w) &&
      peopleWords.any (fun pw =>
        pw.data.isPrefixOf ((s.drop (i + d + w)).map Char.toLower) &&
        (decide (s.length ≤ i + d + w + pw.data.length) ||
         !isWordChar (s.getD (i + d + w + pw.data.length) ' '))))))

/-- Solitude phrases of `_people_known` (agent.py line 114). -/
def soloPhrases : List String := ["alone", "only me", "by myself", "just me"]

/-- `re.search` of `\b(alone|only me|by myself|just me)\b` with `re.I`
(agent.py line 114). -/
def soloSearch (s : List Char) : Bool :=
  (List.range s.length).any (fun i =>
    (i == 0 || !isWordChar (s.getD (i - 1) ' ')) &&
    soloPhrases.any (fun ph =>
      ph.data.isPrefixOf ((s.drop i).map Char.toLower) &&
      (decide (s.length ≤ i + ph.data.length) ||
       !isWordChar (s.getD (i + ph.data.length) ' '))))

/-- `TriageAgent._people_known` (agent.py lines 109-116). -/
def people_known (text : String) : Bool :=
  if text == "" then false
  else peopleCountSearch text.data || soloSearch text.data

/-- `safe_cues` of `_safety_known` (agent.py line 122). -/
def safeCues : List String :=
  ["i\x27m safe", "im safe", "we are safe", "away from danger", "out of danger",
   "outside now", "safe now", "ok now"]

/-- `unsafe_cues` of `_safety_known` (agent.py line 123). -/
def unsafeCues : List String :=
  ["not safe", "still inside", "still in danger", "still here",
   "can\x27t get out", "cannot get out", "trapped", "stuck"]

/-- `TriageAgent._safety_known` (agent.py lines 118-128). -/
def safety_known (text : String) : Option Bool :=
  if text == "" then none
  else
    let low := lowerStr text
    if safeCues.any (fun cue => strContains low cue) then some true
    else if unsafeCues.any (fun cue => strContains low cue) then some false
    else none

/-- `conversation_text` (agent.py line 136). -/
def conversationTextOf (messages : List Message) : String :=
  trimStr (joinWith " " (userTexts messages))

/-- `last_user_text` (agent.py line 137). -/
def lastUserTextOf (messages : List Message) : String :=
  match latest_user_message messages with
  | some m => m.content
  | none => conversationTextOf messages

/-- The `summary` of a call (agent.py line 139). -/
def summaryOf (o : AgentOracles) (messages : List Message) : String :=
  build_summary o.summarizer messages

/-- The `pipeline_result` of a call (agent.py line 141): the pipeline is run
on the full conversation text with the prebuilt summary. -/
def pipelineResultOf (kb : List KBEntry) (o : AgentOracles) (messages : List Message) : TriageResult :=
  TriagePipeline.run kb o.pipeline (conversationTextOf messages) (some (summaryOf o messages))

/-- The `ctx` passed to the reply model (agent.py lines 142-152). -/
def ctxOf (kb : List KBEntry) (o : AgentOracles) (messages : List Message) : LLMReplyContext :=
  let p := pipelineResultOf kb o messages
  let conversationText := conversationTextOf messages
  { category := p.category
    severity := p.severity
    location := p.location
    guidance := p.guidance
    summary := p.summary
    locationKnown := !(p.location == "")
    peopleKnown := people_known conversationText
    safetyKnown := (safety_known conversationText).getD false
    triageComplete := false }

/-- The fixed introductory prompt `greeting_reply` (agent.py lines 154-157);
the source file contains the mojibake bytes for the curly apostrophe. -/
def greetingReply : String :=
  "Hi, Iâ€™m an emergency triage assistant. Please describe what is happening and where you are, so I can help assess how urgent it is."

/-- The fixed closing sentence used once the triage-complete latch is set
(agent.py line 165). -/
def alreadySubmittedReply : String :=
  "Your report has already been submitted. Stay safe until responders arrive."

/-- The deterministic templated fallback reply (agent.py lines 180-188). -/
def fallbackReply (severity category : String) : String :=
  "Understood. This looks like a " ++
    (severity ++ (" severity " ++ (category ++ (" situation. " ++
    ("Based on your description, this appears to be a " ++
    (severity ++ (" severity " ++ (category ++ (" situation. " ++
    "Stay safe, avoid unnecessary risk, follow instructions from local authorities, and contact emergency services in urgent situations.")))))))))

/-- The normal (non-greeting) reply branch (agent.py lines 161-188),
returning the final reply text and the updated latch: the latch
short-circuit, then the remote generator, then the templated fallback for
any empty outcome.  The latch is set exactly on a successful generator
reply whose prompt context was triage-complete (reply_llm.py lines 165-167
and agent.py lines 171-172 set the same flag under the same condition). -/
def normalReplyLatch (latch : Bool) (o : AgentOracles) (messages : List Message)
    (p : TriageResult) (ctx : LLMReplyContext) : String × Bool :=
  let step :=
    if latch then (alreadySubmittedReply, true)
    else
      match LLMReplyModel.generate_reply o.replyLLM messages ctx with
      | some r => if !(r.text == "") then (r.text, latch || r.triageComplete) else ("", latch)
      | none => ("", latch)
  (if step.1 == "" then fallbackReply p.severity p.category else step.1, step.2)

/-- The result of the normal branch together with the updated latch
(agent.py lines 161-197). -/
def normalResultOf (kb : List KBEntry) (latch : Bool) (o : AgentOracles)
    (messages : List Message) : AgentResult × Bool :=
  let p := pipelineResultOf kb o messages
  let ctx := ctxOf kb o messages
  ({ reply := (normalReplyLatch latch o messages p ctx).1
     category := p.category
     severity := p.severity
     location := p.location
     guidance := p.guidance
     summary := p.summary },
   (normalReplyLatch latch o messages p ctx).2)

/-- The result of the greeting branch (agent.py lines 159-160, 190-197):
the fixed introductory prompt with the pipeline's structured fields; the
latch is untouched. -/
def greetingResultOf (kb : List KBEntry) (o : AgentOracles)
    (messages : List Message) : AgentResult :=
  let p := pipelineResultOf kb o messages
  { reply := greetingReply
    category := p.category
    severity := p.severity
    location := p.location
    guidance := p.guidance
    summary := p.summary }

/-- `TriageAgent._build_agent_result` (agent.py lines 130-197), the body of
`run` and `run_chat`.  State passing: `latch` is the process-level
`self.reply_llm.triage_complete` flag before the call, and the second
component of the returned pair is its value after the call.  The one
`raise` of the source (`ValueError` on an empty message list) is the
`Except.error` case. -/
def build_agent_result (kb : List KBEntry) (latch : Bool) (o : AgentOracles)
    (messages : List Message) : Except String (AgentResult × Bool) :=
  if messages.isEmpty then .error "No messages provided to TriageAgent.run"
  else if is_greeting (lastUserTextOf messages) then
    .ok (greetingResultOf kb o messages, latch)
  else .ok (normalResultOf kb latch o messages)

end TriageAgent

/-! ## Verification helpers: concrete inputs and derived notions -/

/-- Numeric rank of the total order low < medium < high on severities. -/
def severityRank (s : String) : Nat :=
  if s == "low" then 0 else if s == "medium" then 1 else 2

/-- The high-severity scenario input of the spec (section 8). -/
def gunshotsText : String :=
  "Gunshots, someone is bleeding heavily, we are trapped inside."

/-- A remote generator reply used in concrete runs (any text of at least 20
characters behaves the same). -/
def submittedLLMText : String :=
  "Thank you, your report has been submitted and help is on the way."

/-- Oracles for a run where every remote call fails. -/
def oraclesAllFail : AgentOracles :=
  { summarizer := none, pipeline := ⟨"other", none⟩, replyLLM := none }

/-- Oracles for a run whose reply generator succeeds. -/
def oraclesReplyOk : AgentOracles :=
  { summarizer := none, pipeline := ⟨"other", none⟩, replyLLM := some submittedLLMText }

/-- A conversation that satisfies all completion conditions: location,
people count and an explicit safe-state phrase. -/
def completeMessages : List Message :=
  [{ role := "user", content := "Flooding at 123 Main Street, we are 2 people, I\x27m safe now" }]

/-- A single-greeting conversation. -/
def hiMessages : List Message := [{ role := "user", content := "hi" }]

/-- A plain single-message conversation with no location/people/safety data. -/
def helpMessages : List Message := [{ role := "user", content := "help me please" }]

/-- A reply context whose `safety_known` flag is false but whose summary
contains an explicit safety phrase. -/
def safetyFalseCtx : LLMReplyContext :=
  { category := "other"
    severity := "low"
    location := "near the plaza"
    guidance := "g"
    summary := "i am safe at the mall"
    locationKnown := true
    peopleKnown := true
    safetyKnown := false
    triageComplete := false }

/-- A reply context with all three knowledge flags set. -/
def allFlagsCtx : LLMReplyContext :=
  { category := "flood"
    severity := "high"
    location := "123 Main Street"
    guidance := "g"
    summary := "water is rising fast"
    locationKnown := true
    peopleKnown := true
    safetyKnown := true
    triageComplete := false }

/-- The result of the first concrete run of the C6 analysis: the generator
reply is used and the conversation is triage-complete. -/
def firstCallResult : AgentResult :=
  { reply := submittedLLMText
    category := "flood"
    severity := "medium"
    location := "123 Main Street"
    guidance := IncidentRAG.guidanceLead "medium" "flood" ++ IncidentRAG.genericGuidanceSentence
    summary := "Flooding at 123 Main Street, we are 2 people, I\x27m safe now" }

/-- The result of the identical second run, after the latch was set. -/
def secondCallResult : AgentResult :=
  { firstCallResult with reply := TriageAgent.alreadySubmittedReply }

instance {ε α : Type} [DecidableEq ε] [DecidableEq α] : DecidableEq (Except ε α)
  | .error e, .error f =>
    if h : e = f then .isTrue (by rw [h]) else .isFalse (fun hc => h (Except.error.inj hc))
  | .error _, .ok _ => .isFalse (fun hc => Except.noConfusion hc)
  | .ok _, .error _ => .isFalse (fun hc => Except.noConfusion hc)
  | .ok a, .ok b =>
    if h : a = b then .isTrue (by rw [h]) else .isFalse (fun hc => h (Except.ok.inj hc))

/-! ## General lemmas about the string primitives -/

theorem subList_of_isPrefixOf {n h : List Char} (hp : n.isPrefixOf h = true) :
    subList n h = true := by
  cases h with
  | nil =>
    cases n with
    | nil => rfl
    | cons a t => simp [List.isPrefixOf] at hp
  | cons c t => simp [subList, hp]

theorem subList_cons {n : List Char} {c : Char} {t : List Char}
    (h : subList n t = true) : subList n (c :: t) = true := by
  simp [subList, h]

theorem subList_append_left (pre : List Char) {n h : List Char}
    (hs : subList n h = true) : subList n (pre ++ h) = true := by
  induction pre with
  | nil => simpa using hs
  | cons c t ih => exact subList_cons ih

theorem subList_self_append (n post : List Char) : subList n (n ++ post) = true :=
  subList_of_isPrefixOf (List.isPrefixOf_iff_prefix.mpr (List.prefix_append n post))

theorem strContains_left_mid (x s y : String) : strContains (x ++ (s ++ y)) s = true := by
  unfold strContains
  rw [String.data_append, String.data_append]
  exact subList_append_left x.data (subList_self_append s.data y.data)

theorem append_ne_empty_left (a b : String) (h : a.data ≠ []) : a ++ b ≠ "" := by
  intro hc
  have hd := congrArg String.data hc
  rw [String.data_append] at hd
  exact h (List.append_eq_nil.mp hd).1

/-- Merging never leaves `high`. -/
theorem mergeSeverity_high_left (sec : String) :
    TriagePipeline.mergeSeverity "high" sec = "high" := by
  unfold TriagePipeline.mergeSeverity
  have h1 : (("high" : String) == "high") = true := by decide
  have h2 : (("high" : String) == "low") = false := by decide
  simp [h1, h2]

/-- Once a `high_any` cue is present, `_adjust_severity` returns `high`
for every category and every base severity. -/
theorem adjust_severity_high_of_high_any (category base text : String)
    (h : TriagePipeline.high_any.any (fun term => strContains (lowerStr text) term) = true) :
    TriagePipeline.adjust_severity category base text = "high" := by
  unfold TriagePipeline.adjust_severity
  simp only [h, if_true]
  have hh : (("high" : String) == "low") = false := by decide
  have hv : ((("high" : String) == "low") || (("high" : String) == "medium") ||
      (("high" : String) == "high")) = true := by decide
  cases hf : (category == "flood" && TriagePipeline.flood_terms.any
      (fun term => strContains (lowerStr text) term)) <;>
    cases hr : (TriagePipeline.high_risk_terms.any
      (fun term => strContains (lowerStr text) term)) <;>
    cases ht : (category == "flood" && TriagePipeline.trapped_terms.any
      (fun t => strContains (lowerStr text) t) && TriagePipeline.child_terms.any
      (fun c => strContains (lowerStr text) c)) <;>
    cases hs : (TriagePipeline.adjustSmokeTerms.any
      (fun term => strContains (lowerStr text) term)) <;>
    simp [hf, hr, ht, hs, hh, hv]

/-- C3: the secondary-estimate merge (pipeline.py lines 63-68) is
escalation-only - a secondary `high` forces `high`, a secondary `medium`
raises `low` to `medium`, and for severities in the closed set the merged
value never ranks below the value before the merge. -/
theorem merge_secondary_severity_escalation_only (cur sec : String)
    (hc : cur ∈ SEVERITY_LEVELS) (hs : sec ∈ SEVERITY_LEVELS) :
    (sec = "high" → TriagePipeline.mergeSeverity cur sec = "high") ∧
    (cur = "low" → sec = "medium" → TriagePipeline.mergeSeverity cur sec = "medium") ∧
    severityRank cur ≤ severityRank (TriagePipeline.mergeSeverity cur sec) := by
  fin_cases hc <;> fin_cases hs <;> refine ⟨?_, ?_, ?_⟩ <;> decide

/-- Witness for C3 at `cur = "low"`, `sec = "high"`. -/
theorem merge_secondary_severity_escalation_only_witness :
    (("low" ∈ SEVERITY_LEVELS) ∧ ("high" ∈ SEVERITY_LEVELS)) ∧
    (("high" = "high" → TriagePipeline.mergeSeverity "low" "high" = "high") ∧
     ("low" = "low" → "high" = "medium" → TriagePipeline.mergeSeverity "low" "high" = "medium") ∧
     severityRank "low" ≤ severityRank (TriagePipeline.mergeSeverity "low" "high")) :=
  ⟨⟨by decide, by decide⟩,
   merge_secondary_severity_escalation_only "low" "high" (by decide) (by decide)⟩

/-- C4: rule-based severity is the three-tier cascade of
`CrisisClassifier._infer_severity` - `high` on any life-threatening-cue
keyword of its lexicon (trapped, cannot/can\x27t breathe, unconscious, the
structural-collapse cues, severe bleeding, the cardiac cue, no pulse),
overriding all else; else `medium` on any serious-but-survivable cue; else
`low` - and the second escalation pass of `_adjust_severity` forces `high`
for universal high-risk terms regardless of category; in particular the
spec scenario input yields severity `high` from the full pipeline for
every category-model outcome and every secondary-severity outcome. -/
theorem rule_severity_cascade_and_gunshots_scenario (text category base : String) :
    (CrisisClassifier.high_keywords.any (fun k => strContains (lowerStr text) k) = true →
      CrisisClassifier.infer_severity text = "high") ∧
    (CrisisClassifier.high_keywords.any (fun k => strContains (lowerStr text) k) = false →
      CrisisClassifier.medium_keywords.any (fun k => strContains (lowerStr text) k) = true →
      CrisisClassifier.infer_severity text = "medium") ∧
    (CrisisClassifier.high_keywords.any (fun k => strContains (lowerStr text) k) = false →
      CrisisClassifier.medium_keywords.any (fun k => strContains (lowerStr text) k) = false →
      CrisisClassifier.infer_severity text = "low") ∧
    (TriagePipeline.high_any.any (fun term => strContains (lowerStr text) term) = true →
      TriagePipeline.adjust_severity category base text = "high") ∧
    (∀ (kb : List KBEntry) (o : PipelineOracles),
      (TriagePipeline.run kb o gunshotsText none).severity = "high") := by
  refine ⟨?_, ?_, ?_, ?_, ?_⟩
  · intro h; simp [CrisisClassifier.infer_severity, h]
  · intro h1 h2; simp [CrisisClassifier.infer_severity, h1, h2]
  · intro h1 h2; simp [CrisisClassifier.infer_severity, h1, h2]
  · exact adjust_severity_high_of_high_any category base text
  · intro kb o
    have hrw : (TriagePipeline.run kb o gunshotsText none).severity =
        TriagePipeline.mergeSeverity
          (TriagePipeline.adjust_severity
            (CrisisClassifier.apply_category_overrides
              (TriagePipeline.summarize_text gunshotsText) o.modelLabel).1
            (CrisisClassifier.infer_severity (TriagePipeline.summarize_text gunshotsText))
            (TriagePipeline.summarize_text gunshotsText))
          (LLMSeverityModel.infer o.severityLLM
            (TriagePipeline.summarize_text gunshotsText)).severity := rfl
    rw [hrw, adjust_severity_high_of_high_any _ _ _ (by decide)]
    exact mergeSeverity_high_left _

/-- Witness for C4: the high tier at a text with a life-threatening cue,
the medium tier, the low tier, and the universal escalation pass. -/
theorem rule_severity_cascade_and_gunshots_scenario_witness :
    (CrisisClassifier.high_keywords.any
        (fun k => strContains (lowerStr "someone is trapped under rubble") k) = true ∧
      CrisisClassifier.infer_severity "someone is trapped under rubble" = "high") ∧
    (CrisisClassifier.high_keywords.any
        (fun k => strContains (lowerStr "we need help with water damage") k) = false ∧
      CrisisClassifier.medium_keywords.any
        (fun k => strContains (lowerStr "we need help with water damage") k) = true ∧
      CrisisClassifier.infer_severity "we need help with water damage" = "medium") ∧
    (CrisisClassifier.high_keywords.any
        (fun k => strContains (lowerStr "all quiet here") k) = false ∧
      CrisisClassifier.medium_keywords.any
        (fun k => strContains (lowerStr "all quiet here") k) = false ∧
      CrisisClassifier.infer_severity "all quiet here" = "low") ∧
    (TriagePipeline.high_any.any
        (fun term => strContains (lowerStr "shots fired near the school") term) = true ∧
      TriagePipeline.adjust_severity "storm" "low" "shots fired near the school" = "high") :=
  ⟨⟨by decide, (rule_severity_cascade_and_gunshots_scenario
      "someone is trapped under rubble" "storm" "low").1 (by decide)⟩,
   ⟨by decide, by decide, ((rule_severity_cascade_and_gunshots_scenario
      "we need help with water damage" "storm" "low").2.1 (by decide) (by decide))⟩,
   ⟨by decide, by decide, ((rule_severity_cascade_and_gunshots_scenario
      "all quiet here" "storm" "low").2.2.1 (by decide) (by decide))⟩,
   ⟨by decide, ((rule_severity_cascade_and_gunshots_scenario
      "shots fired near the school" "storm" "low").2.2.2.1 (by decide))⟩⟩

/-- C5: category classification is the strict first-match-wins cascade of
`_apply_category_overrides` - (1) the flood lexical override, (2) the
smoke-only phrases, (3) the statistical prediction only when it is in the
closed set and not "other", (4) the secondary flood/earthquake/fire
keyword sweep, (5) the "other" fallback - and an unrecognized model
output never changes the outcome (no exception path: the result is the
same for any two labels outside the closed set, computed by steps 4/5). -/
theorem category_override_precedence (text m m1 m2 : String) :
    (CrisisClassifier.floodOverrideCond (lowerStr text) = true →
      CrisisClassifier.apply_category_overrides text m = ("flood", "keyword_override")) ∧
    (CrisisClassifier.floodOverrideCond (lowerStr text) = false →
      CrisisClassifier.smokeOverrideCond (lowerStr text) = true →
      CrisisClassifier.apply_category_overrides text m = ("fire", "keyword_override")) ∧
    (CrisisClassifier.floodOverrideCond (lowerStr text) = false →
      CrisisClassifier.smokeOverrideCond (lowerStr text) = false →
      CRISIS_CATEGORIES.contains m = true → (m == "other") = false →
      CrisisClassifier.apply_category_overrides text m = (m, "model")) ∧
    (CRISIS_CATEGORIES.contains m1 = false → CRISIS_CATEGORIES.contains m2 = false →
      CrisisClassifier.apply_category_overrides text m1 =
        CrisisClassifier.apply_category_overrides text m2) ∧
    (CrisisClassifier.floodOverrideCond (lowerStr text) = false →
      CrisisClassifier.smokeOverrideCond (lowerStr text) = false →
      (CRISIS_CATEGORIES.contains m && !(m == "other")) = false →
      (CrisisClassifier.floodSweepCond (lowerStr text) = true →
        CrisisClassifier.apply_category_overrides text m = ("flood", "keyword_override")) ∧
      (CrisisClassifier.floodSweepCond (lowerStr text) = false →
        CrisisClassifier.quakeSweepCond (lowerStr text) = true →
        CrisisClassifier.apply_category_overrides text m = ("earthquake", "keyword_override")) ∧
      (CrisisClassifier.floodSweepCond (lowerStr text) = false →
        CrisisClassifier.quakeSweepCond (lowerStr text) = false →
        CrisisClassifier.fireSweepCond (lowerStr text) = true →
        CrisisClassifier.apply_category_overrides text m = ("fire", "keyword_override")) ∧
      (CrisisClassifier.floodSweepCond (lowerStr text) = false →
        CrisisClassifier.quakeSweepCond (lowerStr text) = false →
        CrisisClassifier.fireSweepCond (lowerStr text) = false →
        CrisisClassifier.apply_category_overrides text m = ("other", "fallback"))) := by
  refine ⟨?_, ?_, ?_, ?_, ?_⟩
  · intro h; simp [CrisisClassifier.apply_category_overrides, h]
  · intro h1 h2; simp [CrisisClassifier.apply_category_overrides, h1, h2]
  · intro h1 h2 hc ho
    simp at hc ho
    simp [CrisisClassifier.apply_category_overrides, h1, h2, hc, ho]
  · intro hm1 hm2
    simp at hm1 hm2
    simp [CrisisClassifier.apply_category_overrides, hm1, hm2]
  · intro h1 h2 hm
    simp at hm
    refine ⟨?_, ?_, ?_, ?_⟩
    · intro h4
      simp [CrisisClassifier.apply_category_overrides, h1, h2, h4]
      exact hm
    · intro h4 h5
      simp [CrisisClassifier.apply_category_overrides, h1, h2, h4, h5]
      exact hm
    · intro h4 h5 h6
      simp [CrisisClassifier.apply_category_overrides, h1, h2, h4, h5, h6]
      exact hm
    · intro h4 h5 h6
      simp [CrisisClassifier.apply_category_overrides, h1, h2, h4, h5, h6]
      exact hm

/-- Witness for C5: the flood override beats a valid "storm" model label;
the smoke phrase gives fire; a trusted model label passes through; two
unrecognized labels degrade identically; the earthquake sweep fires for an
"other" model label. -/
theorem category_override_precedence_witness :
    (CrisisClassifier.floodOverrideCond (lowerStr "water in my basement") = true ∧
      CrisisClassifier.apply_category_overrides "water in my basement" "storm" =
        ("flood", "keyword_override")) ∧
    (CrisisClassifier.apply_category_overrides "there is smoke in my apartment" "storm" =
        ("fire", "keyword_override")) ∧
    (CrisisClassifier.apply_category_overrides "something happened" "storm" = ("storm", "model")) ∧
    (CrisisClassifier.apply_category_overrides "strong shaking here" "bogus_label" =
        CrisisClassifier.apply_category_overrides "strong shaking here" "labelbogus") ∧
    (CrisisClassifier.apply_category_overrides "strong shaking here" "other" =
        ("earthquake", "keyword_override")) :=
  ⟨⟨by decide, (category_override_precedence "water in my basement" "storm" "x" "y").1 (by decide)⟩,
   (category_override_precedence "there is smoke in my apartment" "storm" "x" "y").2.1
     (by decide) (by decide),
   (category_override_precedence "something happened" "storm" "x" "y").2.2.1
     (by decide) (by decide) (by decide) (by decide),
   (category_override_precedence "strong shaking here" "m" "bogus_label" "labelbogus").2.2.2.1
     (by decide) (by decide),
   ((category_override_precedence "strong shaking here" "other" "x" "y").2.2.2.2
     (by decide) (by decide) (by decide)).2.1 (by decide) (by decide)⟩

/-- C7: location extraction - the street address "123 Main Street" is
extracted from the first spec input (so the result contains it), the bare
"in danger" capture of the second input is rejected because it has no
geographic token, and whenever no cascade stage matches (no address, no
landmark word, and the prepositional candidate is absent or lacks a
geographic token) the result is the empty string; the function is total,
so no input raises. -/
theorem location_extraction_cases (text : String) :
    LocationExtractor.extract "I\x27m at 123 Main Street, trapped" = "123 Main Street" ∧
    strContains (LocationExtractor.extract "I\x27m at 123 Main Street, trapped")
      "123 Main Street" = true ∧
    LocationExtractor.extract "I am in danger" = "" ∧
    (LocationExtractor.extract_address text = "" →
      strContains (lowerStr text) "mall" = false →
      strContains (lowerStr text) "station" = false →
      strContains (lowerStr text) "airport" = false →
      (LocationExtractor.prepCandidate (lowerStr text).data = [] ∨
        LocationExtractor.geoTokens.any
          (fun tok => subList tok.data (LocationExtractor.prepCandidate (lowerStr text).data)) = false) →
      LocationExtractor.extract text = "") := by
  refine ⟨by decide, by decide, by decide, ?_⟩
  intro ha h1 h2 h3 h5
  cases h5 with
  | inl h5 => simp [LocationExtractor.extract, ha, h1, h2, h3, h5]
  | inr h5 => simp [LocationExtractor.extract, ha, h1, h2, h3, h5]

/-- Witness for C7 on a text where no cascade stage matches. -/
theorem location_extraction_cases_witness :
    (LocationExtractor.extract_address "nothing to see here" = "" ∧
      strContains (lowerStr "nothing to see here") "mall" = false ∧
      LocationExtractor.prepCandidate (lowerStr "nothing to see here").data = []) ∧
    LocationExtractor.extract "nothing to see here" = "" :=
  ⟨⟨by decide, by decide, by decide⟩,
   (location_extraction_cases "nothing to see here").2.2.2 (by decide) (by decide)
     (by decide) (by decide) (Or.inl (by decide))⟩

/-- C2 fails on the code: at `safetyFalseCtx` the computed
`triage_complete` is true although the `safety_known` flag is false,
because `_build_prompt` (reply_llm.py lines 54-72) also accepts a textual
safety confirmation found in the summary - so `triage_complete` is not a
pure function of the three knowledge flags. -/
theorem triage_complete_flags_counterexample :
    ¬ (LLMReplyModel.buildPromptComplete [] safetyFalseCtx = true ↔
        (safetyFalseCtx.locationKnown = true ∧ safetyFalseCtx.peopleKnown = true ∧
          safetyFalseCtx.safetyKnown = true)) := by decide

/-- C2 amended: the computed `triage_complete` is true iff
`location_known` and `people_known` hold and either the `safety_known`
flag holds or a safety-confirmation phrase occurs in the summary plus last
user turn; in particular all three flags true still force completion. -/
theorem triage_complete_iff_flags_or_safety_confirmation
    (messages : List Message) (ctx : LLMReplyContext) :
    (LLMReplyModel.buildPromptComplete messages ctx = true ↔
      (ctx.locationKnown = true ∧ ctx.peopleKnown = true ∧
        (ctx.safetyKnown = true ∨ LLMReplyModel.safetyConfirmed messages ctx = true))) ∧
    (ctx.locationKnown = true → ctx.peopleKnown = true → ctx.safetyKnown = true →
      LLMReplyModel.buildPromptComplete messages ctx = true) := by
  constructor
  · simp [LLMReplyModel.buildPromptComplete, Bool.and_eq_true, Bool.or_eq_true, and_assoc]
  · intro h1 h2 h3
    simp [LLMReplyModel.buildPromptComplete, h1, h2, h3]

/-- Witness for the amended C2 at a context with all three flags set. -/
theorem triage_complete_iff_flags_or_safety_confirmation_witness :
    (allFlagsCtx.locationKnown = true ∧ allFlagsCtx.peopleKnown = true ∧
      allFlagsCtx.safetyKnown = true) ∧
    LLMReplyModel.buildPromptComplete [] allFlagsCtx = true :=
  ⟨⟨by decide, by decide, by decide⟩,
   (triage_complete_iff_flags_or_safety_confirmation [] allFlagsCtx).2
     (by decide) (by decide) (by decide)⟩

/-- C9: whenever the latest user turn is a bare greeting (per
`_is_greeting`, agent.py lines 61-87), the agent returns the fixed
introductory prompt as the reply and leaves the latch untouched, bypassing
the normal reply branch. -/
theorem greeting_short_circuit (kb : List KBEntry) (latch : Bool) (o : AgentOracles)
    (messages : List Message) (h1 : messages.isEmpty = false)
    (h2 : TriageAgent.is_greeting (TriageAgent.lastUserTextOf messages) = true) :
    ∃ r : AgentResult,
      TriageAgent.build_agent_result kb latch o messages = .ok (r, latch) ∧
      r.reply = TriageAgent.greetingReply := by
  refine ⟨TriageAgent.greetingResultOf kb o messages, ?_, rfl⟩
  unfold TriageAgent.build_agent_result
  simp [h1, h2]

/-- Witness for C9 at the single message "hi". -/
theorem greeting_short_circuit_witness :
    (hiMessages.isEmpty = false ∧
      TriageAgent.is_greeting (TriageAgent.lastUserTextOf hiMessages) = true) ∧
    (∃ r : AgentResult,
      TriageAgent.build_agent_result [] false oraclesAllFail hiMessages = .ok (r, false) ∧
      r.reply = TriageAgent.greetingReply) :=
  ⟨⟨by decide, by decide⟩,
   greeting_short_circuit [] false oraclesAllFail hiMessages (by decide) (by decide)⟩

/-- C10: on a greeting turn the returned result differs from the normal
branch only in the reply field - category, severity, location, guidance
and summary all equal the normal-branch values, which are the fields the
decision pipeline computes for the conversation. -/
theorem greeting_frame_effect (kb : List KBEntry) (latch : Bool) (o : AgentOracles)
    (messages : List Message) (h1 : messages.isEmpty = false)
    (h2 : TriageAgent.is_greeting (TriageAgent.lastUserTextOf messages) = true) :
    ∃ (r rn : AgentResult) (s2 : Bool),
      TriageAgent.build_agent_result kb latch o messages = .ok (r, latch) ∧
      TriageAgent.normalResultOf kb latch o messages = (rn, s2) ∧
      r.reply = TriageAgent.greetingReply ∧
      r.category = rn.category ∧ r.severity = rn.severity ∧ r.location = rn.location ∧
      r.guidance = rn.guidance ∧ r.summary = rn.summary ∧
      r.category = (TriageAgent.pipelineResultOf kb o messages).category ∧
      r.severity = (TriageAgent.pipelineResultOf kb o messages).severity ∧
      r.location = (TriageAgent.pipelineResultOf kb o messages).location ∧
      r.guidance = (TriageAgent.pipelineResultOf kb o messages).guidance ∧
      r.summary = (TriageAgent.pipelineResultOf kb o messages).summary := by
  refine ⟨TriageAgent.greetingResultOf kb o messages,
    (TriageAgent.normalResultOf kb latch o messages).1,
    (TriageAgent.normalResultOf kb latch o messages).2,
    ?_, rfl, rfl, rfl, rfl, rfl, rfl, rfl, rfl, rfl, rfl, rfl, rfl⟩
  unfold TriageAgent.build_agent_result
  simp [h1, h2]

/-- Witness for C10 at the single message "hi". -/
theorem greeting_frame_effect_witness :
    (hiMessages.isEmpty = false ∧
      TriageAgent.is_greeting (TriageAgent.lastUserTextOf hiMessages) = true) ∧
    (∃ (r rn : AgentResult) (s2 : Bool),
      TriageAgent.build_agent_result [] false oraclesAllFail hiMessages = .ok (r, false) ∧
      TriageAgent.normalResultOf [] false oraclesAllFail hiMessages = (rn, s2) ∧
      r.reply = TriageAgent.greetingReply ∧
      r.category = rn.category ∧ r.severity = rn.severity ∧ r.location = rn.location ∧
      r.guidance = rn.guidance ∧ r.summary = rn.summary ∧
      r.category = (TriageAgent.pipelineResultOf [] oraclesAllFail hiMessages).category ∧
      r.severity = (TriageAgent.pipelineResultOf [] oraclesAllFail hiMessages).severity ∧
      r.location = (TriageAgent.pipelineResultOf [] oraclesAllFail hiMessages).location ∧
      r.guidance = (TriageAgent.pipelineResultOf [] oraclesAllFail hiMessages).guidance ∧
      r.summary = (TriageAgent.pipelineResultOf [] oraclesAllFail hiMessages).summary) :=
  ⟨⟨by decide, by decide⟩,
   greeting_frame_effect [] false oraclesAllFail hiMessages (by decide) (by decide)⟩

/-- The templated fallback reply is never empty. -/
theorem fallbackReply_ne_empty (sev cat : String) :
    TriageAgent.fallbackReply sev cat ≠ "" :=
  append_ne_empty_left _ _ (by decide)

/-- The templated fallback reply contains the severity word. -/
theorem fallbackReply_contains_severity (sev cat : String) :
    strContains (TriageAgent.fallbackReply sev cat) sev = true :=
  strContains_left_mid _ sev _

/-- The templated fallback reply contains the category word. -/
theorem fallbackReply_contains_category (sev cat : String) :
    strContains (TriageAgent.fallbackReply sev cat) cat = true := by
  unfold TriageAgent.fallbackReply strContains
  simp only [String.data_append]
  apply subList_append_left
  apply subList_append_left
  apply subList_append_left
  exact subList_self_append _ _

/-- An empty-checked reply with the templated fallback is never empty. -/
theorem ite_empty_fallback_ne (s sev cat : String) :
    (if s == "" then TriageAgent.fallbackReply sev cat else s) ≠ "" := by
  cases hb : (s == "") with
  | true => simpa [hb] using fallbackReply_ne_empty sev cat
  | false =>
    simp only [hb, Bool.false_eq_true, if_false]
    intro hc
    rw [hc] at hb
    simp at hb

/-- The normal branch always produces a nonempty reply. -/
theorem normalReplyLatch_ne_empty (latch : Bool) (o : AgentOracles)
    (messages : List Message) (p : TriageResult) (ctx : LLMReplyContext) :
    (TriageAgent.normalReplyLatch latch o messages p ctx).1 ≠ "" :=
  ite_empty_fallback_ne _ p.severity p.category

/-- The modelled guidance retriever never returns an empty string. -/
theorem generate_guidance_ne_empty (kb : List KBEntry) (summary category severity : String) :
    IncidentRAG.generate_guidance kb summary category severity ≠ "" := by
  refine append_ne_empty_left _ _ ?_
  unfold IncidentRAG.guidanceLead
  rw [String.data_append]
  intro hc
  exact absurd (List.append_eq_nil.mp hc).1 (by decide)

/-- C1: the triage entry point has exactly one failure mode - the empty
message list yields the `ValueError`; every non-empty message list yields
a complete result (the embedding of every sub-component is total, so no
other exception path exists); and the modelled guidance retrieval always
returns the lead sentence plus text, degrading to the fixed generic
sentence for every category when the knowledge base is empty, never the
empty string. -/
theorem run_single_failure_mode (kb : List KBEntry) (latch : Bool) (o : AgentOracles)
    (messages : List Message) (category severity summary : String)
    (h : messages.isEmpty = false) :
    TriageAgent.build_agent_result kb latch o [] =
      .error "No messages provided to TriageAgent.run" ∧
    (∃ (r : AgentResult) (s2 : Bool),
      TriageAgent.build_agent_result kb latch o messages = .ok (r, s2)) ∧
    IncidentRAG.generate_guidance [] summary category severity =
      IncidentRAG.guidanceLead severity category ++ IncidentRAG.genericGuidanceSentence ∧
    (∀ kb2 : List KBEntry,
      IncidentRAG.generate_guidance kb2 summary category severity ≠ "") := by
  refine ⟨rfl, ?_, rfl, fun kb2 => generate_guidance_ne_empty kb2 summary category severity⟩
  cases hgr : TriageAgent.is_greeting (TriageAgent.lastUserTextOf messages) with
  | true =>
    refine ⟨TriageAgent.greetingResultOf kb o messages, latch, ?_⟩
    unfold TriageAgent.build_agent_result
    simp [h, hgr]
  | false =>
    refine ⟨(TriageAgent.normalResultOf kb latch o messages).1,
      (TriageAgent.normalResultOf kb latch o messages).2, ?_⟩
    unfold TriageAgent.build_agent_result
    simp [h, hgr]

/-- Witness for C1 at a plain one-message conversation. -/
theorem run_single_failure_mode_witness :
    helpMessages.isEmpty = false ∧
    (TriageAgent.build_agent_result [] false oraclesAllFail [] =
        .error "No messages provided to TriageAgent.run" ∧
      (∃ (r : AgentResult) (s2 : Bool),
        TriageAgent.build_agent_result [] false oraclesAllFail helpMessages = .ok (r, s2)) ∧
      IncidentRAG.generate_guidance [] "sum" "fire" "high" =
        IncidentRAG.guidanceLead "high" "fire" ++ IncidentRAG.genericGuidanceSentence ∧
      (∀ kb2 : List KBEntry, IncidentRAG.generate_guidance kb2 "sum" "fire" "high" ≠ "")) :=
  ⟨by decide,
   run_single_failure_mode [] false oraclesAllFail helpMessages "fire" "high" "sum" (by decide)⟩

/-- C8: the reply fallback is total - every successful run returns a
nonempty reply, and on a non-greeting turn with the latch clear, any
failure of the remote generator (timeout, bad status, unparsable body,
empty or too-short text, all of which make `generate_reply` return
nothing) yields exactly the deterministic templated sentence, which
contains the computed severity word and the computed category word. -/
theorem reply_fallback_total (kb : List KBEntry) (latch : Bool) (o : AgentOracles)
    (messages : List Message) (h : messages.isEmpty = false) :
    (∀ (r : AgentResult) (s2 : Bool),
      TriageAgent.build_agent_result kb latch o messages = .ok (r, s2) → r.reply ≠ "") ∧
    (latch = false →
      TriageAgent.is_greeting (TriageAgent.lastUserTextOf messages) = false →
      LLMReplyModel.generate_reply o.replyLLM messages (TriageAgent.ctxOf kb o messages) = none →
      ∃ (r : AgentResult) (s2 : Bool),
        TriageAgent.build_agent_result kb latch o messages = .ok (r, s2) ∧
        r.reply = TriageAgent.fallbackReply (TriageAgent.pipelineResultOf kb o messages).severity
          (TriageAgent.pipelineResultOf kb o messages).category ∧
        strContains r.reply (TriageAgent.pipelineResultOf kb o messages).severity = true ∧
        strContains r.reply (TriageAgent.pipelineResultOf kb o messages).category = true) := by
  constructor
  · intro r s2 hok
    unfold TriageAgent.build_agent_result at hok
    rw [h] at hok
    cases hgr : TriageAgent.is_greeting (TriageAgent.lastUserTextOf messages) with
    | true =>
      rw [hgr] at hok
      simp at hok
      rw [← hok.1]
      show TriageAgent.greetingReply ≠ ""
      decide
    | false =>
      rw [hgr] at hok
      simp at hok
      have hr : r = (TriageAgent.normalResultOf kb latch o messages).1 := by rw [hok]
      rw [hr]
      exact normalReplyLatch_ne_empty latch o messages _ _
  · intro hl hgr hnone
    subst hl
    refine ⟨(TriageAgent.normalResultOf kb false o messages).1,
      (TriageAgent.normalResultOf kb false o messages).2, ?_, ?_, ?_, ?_⟩
    · unfold TriageAgent.build_agent_result
      simp [h, hgr]
    · show (TriageAgent.normalReplyLatch false o messages
        (TriageAgent.pipelineResultOf kb o messages) (TriageAgent.ctxOf kb o messages)).1 = _
      unfold TriageAgent.normalReplyLatch
      simp [hnone]
    · show strContains (TriageAgent.normalReplyLatch false o messages
        (TriageAgent.pipelineResultOf kb o messages) (TriageAgent.ctxOf kb o messages)).1 _ = true
      unfold TriageAgent.normalReplyLatch
      simp only [hnone]
      simp
      exact fallbackReply_contains_severity _ _
    · show strContains (TriageAgent.normalReplyLatch false o messages
        (TriageAgent.pipelineResultOf kb o messages) (TriageAgent.ctxOf kb o messages)).1 _ = true
      unfold TriageAgent.normalReplyLatch
      simp only [hnone]
      simp
      exact fallbackReply_contains_category _ _

/-- Witness for C8 at a plain conversation with a failing generator. -/
theorem reply_fallback_total_witness :
    (helpMessages.isEmpty = false ∧
      TriageAgent.is_greeting (TriageAgent.lastUserTextOf helpMessages) = false ∧
      LLMReplyModel.generate_reply oraclesAllFail.replyLLM helpMessages
        (TriageAgent.ctxOf [] oraclesAllFail helpMessages) = none) ∧
    (∃ (r : AgentResult) (s2 : Bool),
      TriageAgent.build_agent_result [] false oraclesAllFail helpMessages = .ok (r, s2) ∧
      r.reply = TriageAgent.fallbackReply
        (TriageAgent.pipelineResultOf [] oraclesAllFail helpMessages).severity
        (TriageAgent.pipelineResultOf [] oraclesAllFail helpMessages).category ∧
      strContains r.reply (TriageAgent.pipelineResultOf [] oraclesAllFail helpMessages).severity = true ∧
      strContains r.reply (TriageAgent.pipelineResultOf [] oraclesAllFail helpMessages).category = true) :=
  ⟨⟨by decide, by decide, rfl⟩,
   (reply_fallback_total [] false oraclesAllFail helpMessages (by decide)).2
     rfl (by decide) rfl⟩

/-- C6 fails on the code: the process-level triage-complete latch makes the
triage operation stateful.  Calling it on `completeMessages` with identical
external outcomes sets the latch (`.ok true`), and the second of the two
identical calls then returns a different reply text, so two identical
calls do not yield identical results. -/
theorem idempotence_counterexample :
    (TriageAgent.build_agent_result [] false oraclesReplyOk completeMessages).map
      (fun p => p.2) = .ok true ∧
    (TriageAgent.build_agent_result [] false oraclesReplyOk completeMessages).map
        (fun p => p.1.reply) ≠
      (TriageAgent.build_agent_result [] true oraclesReplyOk completeMessages).map
        (fun p => p.1.reply) :=
  ⟨by decide, by decide⟩

/-- C6 amended: two successive calls with the identical message list and
identical external outcomes yield identical category, severity, location,
guidance and summary; the reply is also identical whenever the first call
leaves the latch unchanged, and when the first call sets the latch the
second reply is the fixed closing sentence. -/
theorem repeat_call_structured_fields_stable (kb : List KBEntry) (latch : Bool)
    (o : AgentOracles) (messages : List Message) (r1 r2 : AgentResult) (s1 s2 : Bool)
    (h1 : TriageAgent.build_agent_result kb latch o messages = .ok (r1, s1))
    (h2 : TriageAgent.build_agent_result kb s1 o messages = .ok (r2, s2)) :
    r1.category = r2.category ∧ r1.severity = r2.severity ∧ r1.location = r2.location ∧
    r1.guidance = r2.guidance ∧ r1.summary = r2.summary ∧
    (s1 = latch → r1 = r2) ∧
    (latch = false → s1 = true → r2.reply = TriageAgent.alreadySubmittedReply) := by
  unfold TriageAgent.build_agent_result at h1 h2
  cases he : messages.isEmpty with
  | true => rw [he] at h1; simp at h1
  | false =>
    rw [he] at h1 h2
    cases hgr : TriageAgent.is_greeting (TriageAgent.lastUserTextOf messages) with
    | true =>
      rw [hgr] at h1 h2
      simp at h1 h2
      obtain ⟨hr1, hs1⟩ := h1
      obtain ⟨hr2, hs2⟩ := h2
      subst hr1; subst hr2; subst hs1
      exact ⟨rfl, rfl, rfl, rfl, rfl, fun _ => rfl, fun hl hs => absurd (hs.symm.trans hl) (by decide)⟩
    | false =>
      rw [hgr] at h1 h2
      simp at h1 h2
      have hr1 : r1 = (TriageAgent.normalResultOf kb latch o messages).1 := by rw [h1]
      have hr2 : r2 = (TriageAgent.normalResultOf kb s1 o messages).1 := by rw [h2]
      subst hr1; subst hr2
      refine ⟨rfl, rfl, rfl, rfl, rfl, fun hsl => by rw [hsl], fun hl hs => ?_⟩
      subst hl; subst hs
      rfl

/-- Witness for the amended C6 on the identical-call pair whose first call
sets the latch. -/
theorem repeat_call_structured_fields_stable_witness :
    (TriageAgent.build_agent_result [] false oraclesReplyOk completeMessages =
        .ok (firstCallResult, true) ∧
      TriageAgent.build_agent_result [] true oraclesReplyOk completeMessages =
        .ok (secondCallResult, true)) ∧
    (firstCallResult.category = secondCallResult.category ∧
      firstCallResult.severity = secondCallResult.severity ∧
      firstCallResult.location = secondCallResult.location ∧
      firstCallResult.guidance = secondCallResult.guidance ∧
      firstCallResult.summary = secondCallResult.summary ∧
      (true = false → firstCallResult = secondCallResult) ∧
      (false = false → true = true → secondCallResult.reply = TriageAgent.alreadySubmittedReply)) :=
  ⟨⟨by decide, by decide⟩,
   repeat_call_structured_fields_stable [] false oraclesReplyOk completeMessages
     firstCallResult secondCallResult true true (by decide) (by decide)⟩

end TriageSpec
